import Mathlib

/-!
Verification of the polkadot repository snapshot: the crowdsale runtime
module (`runtime/common/src/crowdsale.rs`) and the dispute-coordinator
subsystem (`node/core/dispute-coordinator/src/lib.rs`).  The crowdsale
module is embedded directly from its source.  The dispute coordinator's
source file is a stub (only the `State` struct with its vote overlay and
`highest_session` field exists under `src/`); its behaviour is modelled
from the specification, as indicated on each definition.
-/

set_option maxRecDepth 4000

/-- Association-list lookup with decidable key equality, used to embed
both the Substrate storage map and the dispute coordinator's
`HashMap<(SessionIndex, CandidateHash), CandidateVotes>` overlay. -/
def alLookup {α β : Type} [DecidableEq α] : List (α × β) → α → Option β
  | [], _ => none
  | (k, v) :: rest, a => if k = a then some v else alLookup rest a

/-- Association-list insert-or-replace. -/
def alInsert {α β : Type} [DecidableEq α] (l : List (α × β)) (k : α) (v : β) : List (α × β) :=
  (k, v) :: l.filter (fun e => !decide (e.1 = k))

/-- Decidable equality for `Except`, so outcomes of the embedded
operations can be compared by evaluation. -/
instance {e a : Type} [DecidableEq e] [DecidableEq a] : DecidableEq (Except e a) := fun x y =>
  match x, y with
  | Except.ok u, Except.ok v =>
      if h : u = v then isTrue (by rw [h]) else isFalse (by intro hh; injection hh; contradiction)
  | Except.error u, Except.error v =>
      if h : u = v then isTrue (by rw [h]) else isFalse (by intro hh; injection hh; contradiction)
  | Except.ok _, Except.error _ => isFalse (by intro hh; injection hh)
  | Except.error _, Except.ok _ => isFalse (by intro hh; injection hh)

/-! ## Crowdsale module

Embedded from `runtime/common/src/crowdsale.rs`. -/

namespace Crowdsale

/-- Account identifier; the mock runtime in the module's tests uses `u64`. -/
abbrev AccountId := Nat

/-- Origin data for a dispatched call; checked by the `ValidityOrigin`. -/
abbrev Origin := Nat

/-- The kind of a statement an account needs to make for a claim to be
valid, from `enum AccountValidity`. -/
inductive AccountValidity : Type
  | Invalid
  | Pending
  | ValidLow
  | ValidHigh
deriving DecidableEq, Repr

/-- The `Default` impl for `AccountValidity` returns `Invalid`. -/
def AccountValidity.defaultValue : AccountValidity := AccountValidity.Invalid

/-- Events deposited by the module, from `decl_event!`. -/
inductive Event : Type
  | ValidityUpdated (who : AccountId) (validity : AccountValidity)
  | ValidityRemoved (who : AccountId)
deriving DecidableEq, Repr

/-- Dispatch errors: `BadOrigin` from `ensure_origin`, and the module's
`Error::ExistingAccount`. -/
inductive DispatchError : Type
  | BadOrigin
  | ExistingAccount
deriving DecidableEq, Repr

/-- The runtime environment the module is instantiated in: the
`ValidityOrigin` check from the `Trait` config, and the system module's
`is_dead_account`. -/
structure Env : Type where
  validityOrigin : Origin → Bool
  isDeadAccount : AccountId → Bool

/-- Module state: the `ValidityStatements` storage map and the list of
deposited events. -/
structure CrowdsaleState : Type where
  validityStatements : List (AccountId × AccountValidity)
  events : List Event
deriving DecidableEq

/-- Reading the `ValidityStatements` storage map; a Substrate storage map
returns the value type's default when the key is absent. -/
def getValidityStatement (st : CrowdsaleState) (who : AccountId) : AccountValidity :=
  (alLookup st.validityStatements who).getD AccountValidity.defaultValue

/-- The dispatchable `set_account_validity(origin, who, validity)`:
checks `ValidityOrigin`, requires `who` to be a dead account
(`Error::ExistingAccount` otherwise), then inserts into
`ValidityStatements` and deposits `ValidityUpdated`. -/
def set_account_validity (env : Env) (st : CrowdsaleState) (origin : Origin)
    (who : AccountId) (validity : AccountValidity) :
    CrowdsaleState × Except DispatchError Unit :=
  if env.validityOrigin origin then
    if env.isDeadAccount who then
      ({ validityStatements := alInsert st.validityStatements who validity,
         events := st.events ++ [Event.ValidityUpdated who validity] },
       Except.ok ())
    else (st, Except.error DispatchError.ExistingAccount)
  else (st, Except.error DispatchError.BadOrigin)

/-- Example environment mirroring the module's mock runtime: origin 6 is
the validity origin, account 42 is an existing (live) account, every
other account is dead. -/
def exEnv : Env :=
  { validityOrigin := fun o => decide (o = 6), isDeadAccount := fun a => decide (a ≠ 42) }

/-- Example starting state: no validity statements, no events. -/
def exCrowdState : CrowdsaleState := { validityStatements := [], events := [] }

end Crowdsale

/-! ## Dispute coordinator

The source file `node/core/dispute-coordinator/src/lib.rs` declares only
the subsystem state
`State { keystore, overlay: HashMap<(SessionIndex, CandidateHash), CandidateVotes>, highest_session }`;
the operations are modelled from the specification as noted on each
definition. -/

namespace Dispute

/-- Session index: a consensus epoch, from `polkadot_primitives::v1::SessionIndex`. -/
abbrev SessionIndex := Nat

/-- Candidate identifier, from `polkadot_primitives::v1::CandidateHash`. -/
abbrev CandidateHash := Nat

/-- Validator identifier: an index into the session's validator set. -/
abbrev ValidatorIndex := Nat

/-- A vote signature, abstracted to its payload. -/
abbrev Signature := Nat

/-- Modelled from the spec: vote polarity is Valid or Invalid. -/
inductive Polarity : Type
  | Valid
  | Invalid
deriving DecidableEq, Repr

/-- Modelled from the spec: a vote is (validator identifier, signature, polarity). -/
structure Vote : Type where
  validator : ValidatorIndex
  signature : Signature
  polarity : Polarity
deriving DecidableEq, Repr

/-- Modelled from the spec: the dispute lifecycle tag
Active / ConcludedValid / ConcludedInvalid / TimedOut. -/
inductive DisputeStatus : Type
  | Active
  | ConcludedValid
  | ConcludedInvalid
  | TimedOut
deriving DecidableEq, Repr

/-- Modelled from the spec: a candidate vote set holds two per-polarity
validator-to-signature mappings, equivocation evidence, the lifecycle
tag and the session of first observation (the source's `CandidateVotes`
is external to the stub). -/
structure CandidateVotes : Type where
  validVotes : List (ValidatorIndex × Signature)
  invalidVotes : List (ValidatorIndex × Signature)
  equivocators : List ValidatorIndex
  lifecycle : DisputeStatus
  firstObserved : SessionIndex
deriving DecidableEq, Repr

/-- A fresh vote set, created lazily on the first import: lifecycle starts Active. -/
def emptyVotes (firstSeen : SessionIndex) : CandidateVotes :=
  { validVotes := [], invalidVotes := [], equivocators := [], lifecycle := DisputeStatus.Active,
    firstObserved := firstSeen }

/-- Modelled from the spec: configuration of the coordinator — session
retention window size, per-session validator-set size, the timeout in
sessions, signature verification against the session's keys, and the
local node's validator index in a session (if any). -/
structure DisputeConfig : Type where
  retention : Nat
  validatorCount : SessionIndex → Nat
  timeoutSessions : Nat
  verifySig : SessionIndex → Vote → Bool
  localValidator : SessionIndex → Option ValidatorIndex

/-- The supermajority threshold for a session: more than two-thirds of
that session's validator-set size. -/
def supermajority (cfg : DisputeConfig) (s : SessionIndex) : Nat :=
  2 * cfg.validatorCount s / 3 + 1

/-- Modelled from the spec: the coordinator state — the per
(session, candidate) vote store (the stub's `overlay`), the derived
active-disputes index, the participation dedup set, and
`highest_session`. -/
structure CoordState : Type where
  store : List ((SessionIndex × CandidateHash) × CandidateVotes)
  activeIndex : List (SessionIndex × CandidateHash)
  requested : List (SessionIndex × CandidateHash)
  highestSession : SessionIndex
deriving DecidableEq

/-- Modelled from the spec: the session window is
[highest - retention, highest] inclusive. -/
def inWindow (cfg : DisputeConfig) (st : CoordState) (s : SessionIndex) : Prop :=
  st.highestSession - cfg.retention ≤ s ∧ s ≤ st.highestSession

instance (cfg : DisputeConfig) (st : CoordState) (s : SessionIndex) :
    Decidable (inWindow cfg st s) := by
  unfold inWindow; infer_instance

/-- The vote store's `get(session, candidate)`. -/
def getVotes (st : CoordState) (s : SessionIndex) (c : CandidateHash) : Option CandidateVotes :=
  alLookup st.store (s, c)

/-- Outcome of a successful vote import. -/
inductive ImportOutcome : Type
  | accepted
  | duplicate
  | equivocation
deriving DecidableEq, Repr

/-- Failure of a vote import. -/
inductive ImportError : Type
  | outOfWindow
  | badSignature
  | storageError
deriving DecidableEq, Repr

/-- The per-polarity mapping of a vote set. -/
def polarityMap (cv : CandidateVotes) : Polarity → List (ValidatorIndex × Signature)
  | Polarity.Valid => cv.validVotes
  | Polarity.Invalid => cv.invalidVotes

/-- The opposite polarity. -/
def oppositeP : Polarity → Polarity
  | Polarity.Valid => Polarity.Invalid
  | Polarity.Invalid => Polarity.Valid

/-- Insert a vote into its polarity mapping. -/
def insertPolarity (cv : CandidateVotes) (p : Polarity) (val : ValidatorIndex)
    (sig : Signature) : CandidateVotes :=
  match p with
  | Polarity.Valid => { cv with validVotes := (val, sig) :: cv.validVotes }
  | Polarity.Invalid => { cv with invalidVotes := (val, sig) :: cv.invalidVotes }

/-- Modelled from the spec: the dispute state machine re-evaluation.
From Active, conclude when a per-polarity raw count reaches the
session's supermajority threshold; Concluded and TimedOut tags are
terminal. -/
def reevaluate (cfg : DisputeConfig) (s : SessionIndex) (cv : CandidateVotes) : CandidateVotes :=
  match cv.lifecycle with
  | DisputeStatus.Active =>
      if supermajority cfg s ≤ cv.validVotes.length then
        { cv with lifecycle := DisputeStatus.ConcludedValid }
      else if supermajority cfg s ≤ cv.invalidVotes.length then
        { cv with lifecycle := DisputeStatus.ConcludedInvalid }
      else cv
  | _ => cv

/-- Update the derived active-disputes index entry for one key. -/
def idxSet (idx : List (SessionIndex × CandidateHash)) (k : SessionIndex × CandidateHash)
    (tag : DisputeStatus) : List (SessionIndex × CandidateHash) :=
  if tag = DisputeStatus.Active then k :: idx.filter (fun x => !decide (x = k))
  else idx.filter (fun x => !decide (x = k))

/-- The vote set recorded by a non-duplicate import: the existing set
(or a fresh one), with the vote inserted into its polarity mapping,
the equivocation marker added when the validator already voted the
opposite way, and the state machine re-evaluated. -/
def importedVotes (cfg : DisputeConfig) (st : CoordState) (s : SessionIndex) (c : CandidateHash)
    (v : Vote) : CandidateVotes :=
  let cv := (alLookup st.store (s, c)).getD (emptyVotes st.highestSession)
  let equiv := (alLookup (polarityMap cv (oppositeP v.polarity)) v.validator).isSome
  let cv1 := insertPolarity cv v.polarity v.validator v.signature
  let cv2 := if equiv then { cv1 with equivocators := v.validator :: cv1.equivocators }
             else cv1
  reevaluate cfg s cv2

/-- Modelled from the spec: `import(session, candidate, vote)`.
Rejects out-of-window sessions and bad signatures; duplicate
same-polarity votes are idempotent no-ops; an opposite-polarity vote
from an already-voted validator is retained and flagged as
equivocation; otherwise the vote is inserted and the state machine
re-evaluated.  The write of the vote set and of the derived index is
transactional: `writeOk = false` injects a storage failure, which
surfaces as an error with the state unmodified. -/
def importVote (cfg : DisputeConfig) (st : CoordState) (s : SessionIndex) (c : CandidateHash)
    (v : Vote) (writeOk : Bool) : CoordState × Except ImportError ImportOutcome :=
  if inWindow cfg st s then
    if cfg.verifySig s v then
      let cv := (alLookup st.store (s, c)).getD (emptyVotes st.highestSession)
      if (alLookup (polarityMap cv v.polarity) v.validator).isSome then
        (st, Except.ok ImportOutcome.duplicate)
      else
        let equiv := (alLookup (polarityMap cv (oppositeP v.polarity)) v.validator).isSome
        let cv3 := importedVotes cfg st s c v
        if writeOk then
          ({ st with store := alInsert st.store (s, c) cv3,
                     activeIndex := idxSet st.activeIndex (s, c) cv3.lifecycle },
           Except.ok (if equiv then ImportOutcome.equivocation else ImportOutcome.accepted))
        else (st, Except.error ImportError.storageError)
    else (st, Except.error ImportError.badSignature)
  else (st, Except.error ImportError.outOfWindow)

/-- Outcome of a session-advance notification. -/
inductive AdvanceOutcome : Type
  | advanced
  | staleSession
deriving DecidableEq, Repr

/-- Modelled from the spec: the vote store's `prune(below_session)` —
remove in one batch every entry whose session is strictly below the
retention floor. -/
def pruneStore (store : List ((SessionIndex × CandidateHash) × CandidateVotes))
    (floor : SessionIndex) : List ((SessionIndex × CandidateHash) × CandidateVotes) :=
  store.filter (fun e => decide (floor ≤ e.1.1))

/-- Modelled from the spec: timeout of a single record — an Active
dispute whose first observation lies more than `timeoutSessions`
sessions in the past becomes TimedOut. -/
def sweepVal (cfg : DisputeConfig) (newHighest : SessionIndex) (cv : CandidateVotes) :
    CandidateVotes :=
  if cv.lifecycle = DisputeStatus.Active ∧ cfg.timeoutSessions < newHighest - cv.firstObserved
  then { cv with lifecycle := DisputeStatus.TimedOut } else cv

/-- Recompute the derived active-disputes index from the store. -/
def computeActiveIndex (store : List ((SessionIndex × CandidateHash) × CandidateVotes)) :
    List (SessionIndex × CandidateHash) :=
  (store.filter (fun e => decide (e.2.lifecycle = DisputeStatus.Active))).map (fun e => e.1)

/-- Modelled from the spec: the session window tracker's
`advance(new_highest)`.  Rejects a decreasing notification with
StaleSession as a no-op; on acceptance prunes everything strictly below
the new retention floor, times out overdue Active records, and clears
pruned entries from the participation dedup set. -/
def advance (cfg : DisputeConfig) (st : CoordState) (newHighest : SessionIndex) :
    CoordState × AdvanceOutcome :=
  if newHighest < st.highestSession then (st, AdvanceOutcome.staleSession)
  else
    let floor := newHighest - cfg.retention
    let store1 := (pruneStore st.store floor).map
      (fun e => (e.1, sweepVal cfg newHighest e.2))
    ({ store := store1,
       activeIndex := computeActiveIndex store1,
       requested := st.requested.filter (fun k => decide (floor ≤ k.1)),
       highestSession := newHighest },
     AdvanceOutcome.advanced)

/-- Whether the local node has a vote of either polarity in the set. -/
def hasLocalVote (cfg : DisputeConfig) (s : SessionIndex) (cv : CandidateVotes) : Bool :=
  match cfg.localValidator s with
  | none => false
  | some idx => (alLookup cv.validVotes idx).isSome || (alLookup cv.invalidVotes idx).isSome

/-- Modelled from the spec: the participation trigger — on observing an
Active dispute the node has not voted on, emit one re-validation
request, deduplicated by the in-memory `requested` set (cleared only by
pruning).  Returns whether a request was emitted. -/
def considerParticipation (cfg : DisputeConfig) (st : CoordState) (s : SessionIndex)
    (c : CandidateHash) : CoordState × Bool :=
  match alLookup st.store (s, c) with
  | none => (st, false)
  | some cv =>
      if cv.lifecycle = DisputeStatus.Active ∧ hasLocalVote cfg s cv = false
         ∧ ¬ (s, c) ∈ st.requested then
        ({ st with requested := (s, c) :: st.requested }, true)
      else (st, false)

/-- An inbound operation of the coordinator's single serialized loop. -/
inductive Op : Type
  | imp (s : SessionIndex) (c : CandidateHash) (v : Vote) (writeOk : Bool)
  | adv (n : SessionIndex)
  | obs (s : SessionIndex) (c : CandidateHash)
deriving DecidableEq, Repr

/-- One step of the loop; returns the new state and the participation
requests emitted by the step. -/
def step (cfg : DisputeConfig) (st : CoordState) :
    Op → CoordState × List (SessionIndex × CandidateHash)
  | Op.imp s c v w => ((importVote cfg st s c v w).1, [])
  | Op.adv n => ((advance cfg st n).1, [])
  | Op.obs s c =>
      let r := considerParticipation cfg st s c
      (r.1, if r.2 then [(s, c)] else [])

/-- Run a sequence of operations, collecting all emitted requests. -/
def run (cfg : DisputeConfig) (st : CoordState) :
    List Op → CoordState × List (SessionIndex × CandidateHash)
  | [] => (st, [])
  | op :: rest =>
      let r := step cfg st op
      let r2 := run cfg r.1 rest
      (r2.1, r.2 ++ r2.2)

/-! ### Concrete fixtures

Used to instantiate the theorems at concrete inputs: the spec's worked
scenario (window size 3, 7 validators, threshold 5). -/

/-- Example configuration: retention 3 sessions, 7 validators per
session (supermajority threshold 5), all signatures verify. -/
def exCfg : DisputeConfig :=
  { retention := 3, validatorCount := fun _ => 7, timeoutSessions := 100,
    verifySig := fun _ _ => true, localValidator := fun _ => none }

/-- Example starting state at session 10 with an empty store. -/
def exState : CoordState :=
  { store := [], activeIndex := [], requested := [], highestSession := 10 }

/-- A concrete vote by validator `i` with polarity `p`. -/
def exVote (i : ValidatorIndex) (p : Polarity) : Vote :=
  { validator := i, signature := i, polarity := p }

/-- State after importing one Valid vote for candidate 77 in session 10. -/
def exState1 : CoordState :=
  (importVote exCfg exState 10 77 (exVote 0 Polarity.Valid) true).1

/-- State after four distinct Valid votes (validators 0 to 3) for
candidate 77 in session 10: one vote short of the threshold 5, so the
dispute is still Active. -/
def exState4 : CoordState :=
  (importVote exCfg (importVote exCfg (importVote exCfg exState1
    10 77 (exVote 1 Polarity.Valid) true).1
    10 77 (exVote 2 Polarity.Valid) true).1
    10 77 (exVote 3 Polarity.Valid) true).1

/-- Small configuration for the lifecycle counterexample: 3 validators,
so the supermajority threshold is 3, with a wide retention window. -/
def cexCfg : DisputeConfig :=
  { retention := 10, validatorCount := fun _ => 3, timeoutSessions := 100,
    verifySig := fun _ _ => true, localValidator := fun _ => none }

/-- One import step of the counterexample trace: session 0, candidate 0. -/
def cexImp (st : CoordState) (i : ValidatorIndex) (p : Polarity) : CoordState :=
  (importVote cexCfg st 0 0 (exVote i p) true).1

/-- Counterexample trace: from an empty state at session 0, all three
validators vote Invalid (concluding the dispute Invalid), then all
three equivocate by also voting Valid, which drives the Valid count to
the threshold without the tag becoming ConcludedValid. -/
def cexFinal : CoordState :=
  cexImp (cexImp (cexImp (cexImp (cexImp (cexImp
    { store := [], activeIndex := [], requested := [], highestSession := 0 }
    0 Polarity.Invalid) 1 Polarity.Invalid) 2 Polarity.Invalid)
    0 Polarity.Valid) 1 Polarity.Valid) 2 Polarity.Valid

/-- The vote set the counterexample trace stores for (session 0, candidate 0). -/
def cexVotes : CandidateVotes :=
  (getVotes cexFinal 0 0).getD (emptyVotes 0)

end Dispute

/-! ## Helper lemmas -/

theorem alLookup_alInsert_self {α β : Type} [DecidableEq α] (l : List (α × β)) (k : α) (v : β) :
    alLookup (alInsert l k v) k = some v := by
  simp [alInsert, alLookup]

theorem alLookup_filterKey_ne {α β : Type} [DecidableEq α] (l : List (α × β)) (k k' : α)
    (h : k' ≠ k) :
    alLookup (l.filter (fun e => !decide (e.1 = k))) k' = alLookup l k' := by
  induction l with
  | nil => rfl
  | cons e rest ih =>
    by_cases he : e.1 = k
    · have hne : ¬ e.1 = k' := fun hk => h (hk ▸ he)
      simp only [List.filter_cons, he]
      rw [if_neg (by simp), ih]
      simp [alLookup, hne]
    · simp only [List.filter_cons]
      rw [if_pos (by simp [he])]
      simp only [alLookup]
      rw [ih]

theorem alLookup_alInsert_ne {α β : Type} [DecidableEq α] (l : List (α × β)) (k k' : α) (v : β)
    (h : k' ≠ k) : alLookup (alInsert l k v) k' = alLookup l k' := by
  simp only [alInsert, alLookup, if_neg (Ne.symm h)]
  exact alLookup_filterKey_ne l k k' h

namespace Dispute

theorem polarityMap_insert_self (cv : CandidateVotes) (p : Polarity) (val : ValidatorIndex)
    (sig : Signature) :
    polarityMap (insertPolarity cv p val sig) p = (val, sig) :: polarityMap cv p := by
  cases p <;> rfl

theorem polarityMap_insert_opp (cv : CandidateVotes) (p : Polarity) (val : ValidatorIndex)
    (sig : Signature) :
    polarityMap (insertPolarity cv p val sig) (oppositeP p) = polarityMap cv (oppositeP p) := by
  cases p <;> rfl

theorem polarityMap_setEquivocators (cv : CandidateVotes) (e : List ValidatorIndex)
    (p : Polarity) : polarityMap { cv with equivocators := e } p = polarityMap cv p := by
  cases p <;> rfl

theorem insertPolarity_lifecycle (cv : CandidateVotes) (p : Polarity) (val : ValidatorIndex)
    (sig : Signature) : (insertPolarity cv p val sig).lifecycle = cv.lifecycle := by
  cases p <;> rfl

theorem reevaluate_polarityMap (cfg : DisputeConfig) (s : SessionIndex) (cv : CandidateVotes)
    (p : Polarity) : polarityMap (reevaluate cfg s cv) p = polarityMap cv p := by
  obtain ⟨vv, iv, eqv, lc, fo⟩ := cv
  cases lc <;> cases p <;> simp only [reevaluate, polarityMap] <;> (repeat' split) <;> rfl

theorem reevaluate_validVotes (cfg : DisputeConfig) (s : SessionIndex) (cv : CandidateVotes) :
    (reevaluate cfg s cv).validVotes = cv.validVotes := by
  obtain ⟨vv, iv, eqv, lc, fo⟩ := cv
  cases lc <;> simp only [reevaluate] <;> (repeat' split) <;> rfl

theorem reevaluate_equivocators (cfg : DisputeConfig) (s : SessionIndex) (cv : CandidateVotes) :
    (reevaluate cfg s cv).equivocators = cv.equivocators := by
  obtain ⟨vv, iv, eqv, lc, fo⟩ := cv
  cases lc <;> simp only [reevaluate] <;> (repeat' split) <;> rfl

theorem reevaluate_lifecycle_equivocators (cfg : DisputeConfig) (s : SessionIndex)
    (cv : CandidateVotes) (e : List ValidatorIndex) :
    (reevaluate cfg s { cv with equivocators := e }).lifecycle
      = (reevaluate cfg s cv).lifecycle := by
  obtain ⟨vv, iv, eqv, lc, fo⟩ := cv
  cases lc <;> simp only [reevaluate] <;> (repeat' split) <;> rfl

theorem reevaluate_terminal (cfg : DisputeConfig) (s : SessionIndex) (cv : CandidateVotes)
    (h : cv.lifecycle ≠ DisputeStatus.Active) : reevaluate cfg s cv = cv := by
  obtain ⟨vv, iv, eqv, lc, fo⟩ := cv
  cases lc
  · exact absurd rfl h
  · rfl
  · rfl
  · rfl

theorem reevaluate_active_valid (cfg : DisputeConfig) (s : SessionIndex) (cv : CandidateVotes)
    (h : cv.lifecycle = DisputeStatus.Active)
    (hc : supermajority cfg s ≤ cv.validVotes.length) :
    reevaluate cfg s cv = { cv with lifecycle := DisputeStatus.ConcludedValid } := by
  obtain ⟨vv, iv, eqv, lc, fo⟩ := cv
  subst h
  simp only [reevaluate]
  rw [if_pos hc]

end Dispute

namespace Dispute

theorem importVote_highest (cfg : DisputeConfig) (st : CoordState) (s : SessionIndex)
    (c : CandidateHash) (v : Vote) (w : Bool) :
    (importVote cfg st s c v w).1.highestSession = st.highestSession := by
  simp only [importVote]
  repeat' split
  all_goals rfl

theorem importVote_requested (cfg : DisputeConfig) (st : CoordState) (s : SessionIndex)
    (c : CandidateHash) (v : Vote) (w : Bool) :
    (importVote cfg st s c v w).1.requested = st.requested := by
  simp only [importVote]
  repeat' split
  all_goals rfl

theorem importVote_state_cases (cfg : DisputeConfig) (st : CoordState) (s : SessionIndex)
    (c : CandidateHash) (v : Vote) (w : Bool) :
    (importVote cfg st s c v w).1 = st
    ∨ (importVote cfg st s c v w).1
        = { st with
              store := alInsert st.store (s, c) (importedVotes cfg st s c v),
              activeIndex := idxSet st.activeIndex (s, c) (importedVotes cfg st s c v).lifecycle } := by
  simp only [importVote]
  repeat' split
  all_goals first
    | (left; rfl)
    | (right; rfl)

theorem importVote_duplicate_case (cfg : DisputeConfig) (st : CoordState) (s : SessionIndex)
    (c : CandidateHash) (v : Vote) (w : Bool)
    (hin : inWindow cfg st s) (hsig : cfg.verifySig s v = true)
    (hdup : (alLookup (polarityMap ((alLookup st.store (s, c)).getD (emptyVotes st.highestSession))
              v.polarity) v.validator).isSome = true) :
    importVote cfg st s c v w = (st, Except.ok ImportOutcome.duplicate) := by
  simp [importVote, hin, hsig, hdup]

theorem importVote_write_case (cfg : DisputeConfig) (st : CoordState) (s : SessionIndex)
    (c : CandidateHash) (v : Vote)
    (hin : inWindow cfg st s) (hsig : cfg.verifySig s v = true)
    (hdup : alLookup (polarityMap ((alLookup st.store (s, c)).getD (emptyVotes st.highestSession))
              v.polarity) v.validator = none) :
    importVote cfg st s c v true
      = ({ st with
             store := alInsert st.store (s, c) (importedVotes cfg st s c v),
             activeIndex := idxSet st.activeIndex (s, c) (importedVotes cfg st s c v).lifecycle },
         Except.ok
           (if (alLookup (polarityMap ((alLookup st.store (s, c)).getD
                  (emptyVotes st.highestSession)) (oppositeP v.polarity)) v.validator).isSome
            then ImportOutcome.equivocation else ImportOutcome.accepted)) := by
  simp [importVote, hin, hsig, hdup]

theorem importedVotes_polarityMap_self (cfg : DisputeConfig) (st : CoordState) (s : SessionIndex)
    (c : CandidateHash) (v : Vote) :
    polarityMap (importedVotes cfg st s c v) v.polarity
      = (v.validator, v.signature)
          :: polarityMap ((alLookup st.store (s, c)).getD (emptyVotes st.highestSession))
               v.polarity := by
  simp only [importedVotes]
  rw [reevaluate_polarityMap]
  split
  · rw [polarityMap_setEquivocators, polarityMap_insert_self]
  · rw [polarityMap_insert_self]

theorem importedVotes_polarityMap_opp (cfg : DisputeConfig) (st : CoordState) (s : SessionIndex)
    (c : CandidateHash) (v : Vote) :
    polarityMap (importedVotes cfg st s c v) (oppositeP v.polarity)
      = polarityMap ((alLookup st.store (s, c)).getD (emptyVotes st.highestSession))
          (oppositeP v.polarity) := by
  simp only [importedVotes]
  rw [reevaluate_polarityMap]
  split
  · rw [polarityMap_setEquivocators, polarityMap_insert_opp]
  · rw [polarityMap_insert_opp]

end Dispute

/-! ## Claim theorems -/

namespace Crowdsale

/-- C9: `set_account_validity(origin, who, validity)` succeeds exactly
when the origin satisfies the `ValidityOrigin` and `who` is a dead
account; a live `who` fails with `Error::ExistingAccount`, and on any
failure the `ValidityStatements` map is left unchanged and no event is
deposited. -/
theorem c9_set_account_validity_guards (env : Env) (st : CrowdsaleState) (origin : Origin)
    (who : AccountId) (validity : AccountValidity) :
    ((set_account_validity env st origin who validity).2 = Except.ok ()
       ↔ env.validityOrigin origin = true ∧ env.isDeadAccount who = true)
    ∧ (env.validityOrigin origin = true → env.isDeadAccount who = false →
        (set_account_validity env st origin who validity).2
          = Except.error DispatchError.ExistingAccount)
    ∧ ((set_account_validity env st origin who validity).2 ≠ Except.ok () →
        (set_account_validity env st origin who validity).1.validityStatements
            = st.validityStatements
          ∧ (set_account_validity env st origin who validity).1.events = st.events) := by
  cases ho : env.validityOrigin origin <;> cases hd : env.isDeadAccount who <;>
    simp [set_account_validity, ho, hd]

/-- C9 witness: in the example environment, setting validity for the
live account 42 from the validity origin fails with ExistingAccount and
leaves the statements map unchanged. -/
theorem c9_witness :
    (set_account_validity exEnv exCrowdState 6 42 AccountValidity.ValidLow).2
        = Except.error DispatchError.ExistingAccount
      ∧ (set_account_validity exEnv exCrowdState 6 42 AccountValidity.ValidLow).1.validityStatements
        = exCrowdState.validityStatements :=
  ⟨(c9_set_account_validity_guards exEnv exCrowdState 6 42 AccountValidity.ValidLow).2.1
      (by decide) (by decide),
   ((c9_set_account_validity_guards exEnv exCrowdState 6 42 AccountValidity.ValidLow).2.2
      (by decide)).1⟩

/-- C10: an account with no recorded statement reads as Invalid (the
default value), and after a successful `set_account_validity` reading
`ValidityStatements` for that account returns exactly the validity that
was written. -/
theorem c10_validity_default_roundtrip (env : Env) (st : CrowdsaleState) (origin : Origin)
    (who : AccountId) (validity : AccountValidity) :
    (alLookup st.validityStatements who = none →
      getValidityStatement st who = AccountValidity.Invalid)
    ∧ ((set_account_validity env st origin who validity).2 = Except.ok () →
      getValidityStatement (set_account_validity env st origin who validity).1 who
        = validity) := by
  constructor
  · intro h
    simp [getValidityStatement, h, AccountValidity.defaultValue]
  · intro h
    cases ho : env.validityOrigin origin <;> cases hd : env.isDeadAccount who
    · simp [set_account_validity, ho, hd] at h
    · simp [set_account_validity, ho, hd] at h
    · simp [set_account_validity, ho, hd] at h
    · simp [set_account_validity, ho, hd, getValidityStatement, alLookup_alInsert_self]

/-- C10 witness: account 7 reads Invalid in the empty state, and after
the validity origin marks it Pending it reads Pending. -/
theorem c10_witness :
    getValidityStatement exCrowdState 7 = AccountValidity.Invalid
      ∧ getValidityStatement
          (set_account_validity exEnv exCrowdState 6 7 AccountValidity.Pending).1 7
        = AccountValidity.Pending :=
  ⟨(c10_validity_default_roundtrip exEnv exCrowdState 6 7 AccountValidity.Pending).1 (by decide),
   (c10_validity_default_roundtrip exEnv exCrowdState 6 7 AccountValidity.Pending).2 (by decide)⟩

end Crowdsale

namespace Dispute

/-- C2: importing a vote for a session outside the window
[highest - retention, highest] fails with OutOfWindow and leaves the
whole state unchanged — in particular the store holds exactly the vote
sets it held before, so no record is created on rejection. -/
theorem c2_out_of_window_no_record (cfg : DisputeConfig) (st : CoordState) (s : SessionIndex)
    (c : CandidateHash) (v : Vote) (w : Bool)
    (h : s < st.highestSession - cfg.retention ∨ st.highestSession < s) :
    importVote cfg st s c v w = (st, Except.error ImportError.outOfWindow)
      ∧ getVotes (importVote cfg st s c v w).1 s c = getVotes st s c := by
  have hni : ¬ inWindow cfg st s := by
    intro hin
    unfold inWindow at hin
    rcases h with h | h
    · exact absurd hin.1 (Nat.not_le.mpr h)
    · exact absurd hin.2 (Nat.not_le.mpr h)
  constructor
  · simp [importVote, hni]
  · simp [importVote, hni]

/-- C2 witness: session 20 is above the example window [7, 10]; the vote
is rejected with OutOfWindow and the state is returned as it was. -/
theorem c2_witness :
    importVote exCfg exState 20 5 (exVote 0 Polarity.Valid) true
      = (exState, Except.error ImportError.outOfWindow) :=
  (c2_out_of_window_no_record exCfg exState 20 5 (exVote 0 Polarity.Valid) true
    (Or.inr (by decide))).1

/-- C8: vote-import writes are atomic with respect to failure: with a
failing storage write the whole state — vote store, derived
active-disputes index, participation set and session bound — is left
exactly as it was, and when the import actually reaches the write
(in-window, verified, non-duplicate vote) the failure is surfaced to
the caller as a storageError. -/
theorem c8_import_write_atomic (cfg : DisputeConfig) (st : CoordState) (s : SessionIndex)
    (c : CandidateHash) (v : Vote) :
    (importVote cfg st s c v false).1 = st
    ∧ (inWindow cfg st s → cfg.verifySig s v = true →
        alLookup (polarityMap ((alLookup st.store (s, c)).getD (emptyVotes st.highestSession))
            v.polarity) v.validator = none →
        importVote cfg st s c v false = (st, Except.error ImportError.storageError)) := by
  constructor
  · simp only [importVote]
    repeat' split
    all_goals first | rfl | simp_all
  · intro hin hsig hdup
    simp [importVote, hin, hsig, hdup]

/-- C8 witness: a first vote for candidate 5 in-session with a failing
write surfaces storageError and leaves the example state unchanged. -/
theorem c8_witness :
    importVote exCfg exState 10 5 (exVote 0 Polarity.Valid) false
      = (exState, Except.error ImportError.storageError) :=
  (c8_import_write_atomic exCfg exState 10 5 (exVote 0 Polarity.Valid)).2
    (by decide) (by decide) (by decide)

/-- C3: importing the same vote twice is idempotent: the second import
leaves the state exactly as it was after the first import and returns
the duplicate outcome. -/
theorem c3_import_idempotent (cfg : DisputeConfig) (st : CoordState) (s : SessionIndex)
    (c : CandidateHash) (v : Vote)
    (hin : inWindow cfg st s) (hsig : cfg.verifySig s v = true) :
    importVote cfg (importVote cfg st s c v true).1 s c v true
      = ((importVote cfg st s c v true).1, Except.ok ImportOutcome.duplicate) := by
  by_cases hdup : (alLookup (polarityMap ((alLookup st.store (s, c)).getD
      (emptyVotes st.highestSession)) v.polarity) v.validator).isSome = true
  · rw [importVote_duplicate_case cfg st s c v true hin hsig hdup]
    exact importVote_duplicate_case cfg st s c v true hin hsig hdup
  · have hnone : alLookup (polarityMap ((alLookup st.store (s, c)).getD
        (emptyVotes st.highestSession)) v.polarity) v.validator = none := by
      cases hx : alLookup (polarityMap ((alLookup st.store (s, c)).getD
        (emptyVotes st.highestSession)) v.polarity) v.validator
      · rfl
      · exact absurd (by rw [hx]; rfl) hdup
    have hfst : (importVote cfg st s c v true).1
        = { st with
              store := alInsert st.store (s, c) (importedVotes cfg st s c v),
              activeIndex := idxSet st.activeIndex (s, c) (importedVotes cfg st s c v).lifecycle } := by
      rw [importVote_write_case cfg st s c v hin hsig hnone]
    rw [hfst]
    apply importVote_duplicate_case
    · exact hin
    · exact hsig
    · show (alLookup (polarityMap ((alLookup (alInsert st.store (s, c)
          (importedVotes cfg st s c v)) (s, c)).getD (emptyVotes st.highestSession))
          v.polarity) v.validator).isSome = true
      rw [alLookup_alInsert_self]
      simp only [Option.getD_some, importedVotes_polarityMap_self]
      simp [alLookup]

/-- C3 witness: re-importing validator 0's Valid vote into the state
that already holds it yields the duplicate outcome and the same state. -/
theorem c3_witness :
    importVote exCfg exState1 10 77 (exVote 0 Polarity.Valid) true
      = (exState1, Except.ok ImportOutcome.duplicate) :=
  c3_import_idempotent exCfg exState 10 77 (exVote 0 Polarity.Valid) (by decide) (by decide)

end Dispute

namespace Dispute

theorem setEquivocators_lifecycle (cv : CandidateVotes) (e : List ValidatorIndex) :
    ({ cv with equivocators := e } : CandidateVotes).lifecycle = cv.lifecycle := rfl

theorem importMerge_lifecycle (cv : CandidateVotes) (p : Polarity) (val : ValidatorIndex)
    (sig : Signature) (b : Bool) :
    (if b then { insertPolarity cv p val sig with
                   equivocators := val :: (insertPolarity cv p val sig).equivocators }
       else insertPolarity cv p val sig).lifecycle = cv.lifecycle := by
  cases b <;> simp [insertPolarity_lifecycle, setEquivocators_lifecycle]

theorem importedVotes_lifecycle_active_valid (cfg : DisputeConfig) (st : CoordState)
    (s : SessionIndex) (c : CandidateHash) (v : Vote)
    (hact : ((alLookup st.store (s, c)).getD (emptyVotes st.highestSession)).lifecycle
              = DisputeStatus.Active)
    (hcount : supermajority cfg s ≤ (importedVotes cfg st s c v).validVotes.length) :
    (importedVotes cfg st s c v).lifecycle = DisputeStatus.ConcludedValid := by
  simp only [importedVotes] at hcount ⊢
  rw [reevaluate_validVotes] at hcount
  rw [reevaluate_active_valid cfg s _ (by rw [importMerge_lifecycle]; exact hact) hcount]

theorem importedVotes_lifecycle_noactive (cfg : DisputeConfig) (st : CoordState)
    (s : SessionIndex) (c : CandidateHash) (v : Vote)
    (h : ((alLookup st.store (s, c)).getD (emptyVotes st.highestSession)).lifecycle
           ≠ DisputeStatus.Active) :
    (importedVotes cfg st s c v).lifecycle
      = ((alLookup st.store (s, c)).getD (emptyVotes st.highestSession)).lifecycle := by
  simp only [importedVotes]
  rw [reevaluate_terminal]
  · rw [importMerge_lifecycle]
  · rw [importMerge_lifecycle]
    exact h

/-- C1 (amended): a vote import performed while the record is Active (or
being created) that brings the Valid count to the supermajority
threshold makes the lifecycle ConcludedValid; and once a record is
ConcludedValid, every subsequent vote import (to any key) leaves its
lifecycle tag ConcludedValid.  (The unamended claim — Valid count at
threshold always implies ConcludedValid — fails when the dispute
already concluded Invalid before equivocating Valid votes arrived; see
the counterexample.) -/
theorem c1_concluded_valid_stable (cfg : DisputeConfig) (st : CoordState) (s : SessionIndex)
    (c : CandidateHash) :
    (∀ v : Vote, inWindow cfg st s → cfg.verifySig s v = true →
      ((alLookup st.store (s, c)).getD (emptyVotes st.highestSession)).lifecycle
          = DisputeStatus.Active →
      alLookup (polarityMap ((alLookup st.store (s, c)).getD (emptyVotes st.highestSession))
          v.polarity) v.validator = none →
      ∀ cv' : CandidateVotes, getVotes (importVote cfg st s c v true).1 s c = some cv' →
        supermajority cfg s ≤ cv'.validVotes.length →
        cv'.lifecycle = DisputeStatus.ConcludedValid)
    ∧ (∀ cv : CandidateVotes, getVotes st s c = some cv →
        cv.lifecycle = DisputeStatus.ConcludedValid →
        ∀ (s' : SessionIndex) (c' : CandidateHash) (v' : Vote) (w : Bool),
          ∃ cv'' : CandidateVotes, getVotes (importVote cfg st s' c' v' w).1 s c = some cv''
            ∧ cv''.lifecycle = DisputeStatus.ConcludedValid) := by
  constructor
  · intro v hin hsig hact hdup cv' hget hcount
    rw [importVote_write_case cfg st s c v hin hsig hdup] at hget
    simp only [getVotes] at hget
    rw [alLookup_alInsert_self] at hget
    injection hget with hget
    subst hget
    exact importedVotes_lifecycle_active_valid cfg st s c v hact hcount
  · intro cv hcv hconc s' c' v' w
    rcases importVote_state_cases cfg st s' c' v' w with hcase | hcase
    · exact ⟨cv, by unfold getVotes at hcv ⊢; rw [hcase]; exact hcv, hconc⟩
    · by_cases hk : ((s, c) : SessionIndex × CandidateHash) = (s', c')
      · refine ⟨importedVotes cfg st s' c' v', ?_, ?_⟩
        · unfold getVotes
          rw [hcase]
          show alLookup (alInsert st.store (s', c') (importedVotes cfg st s' c' v')) (s, c)
            = some (importedVotes cfg st s' c' v')
          rw [hk]
          exact alLookup_alInsert_self _ _ _
        · have hcv' : (alLookup st.store (s', c')).getD (emptyVotes st.highestSession) = cv := by
            rw [← hk]
            unfold getVotes at hcv
            rw [hcv]
            rfl
          rw [importedVotes_lifecycle_noactive cfg st s' c' v' (by rw [hcv', hconc]; simp)]
          rw [hcv', hconc]
      · refine ⟨cv, ?_, hconc⟩
        unfold getVotes
        rw [hcase]
        show alLookup (alInsert st.store (s', c') (importedVotes cfg st s' c' v')) (s, c)
          = some cv
        rw [alLookup_alInsert_ne _ _ _ _ hk]
        exact hcv

/-- C1 counterexample to the unamended claim: in the three-validator
configuration (threshold 3), after three Invalid votes the dispute is
ConcludedInvalid; three equivocating Valid votes then bring the Valid
count to the threshold, yet the lifecycle tag is ConcludedInvalid, not
ConcludedValid. -/
theorem c1_counterexample :
    supermajority cexCfg 0 ≤ cexVotes.validVotes.length
      ∧ cexVotes.lifecycle = DisputeStatus.ConcludedInvalid
      ∧ cexVotes.lifecycle ≠ DisputeStatus.ConcludedValid
      ∧ (getVotes cexFinal 0 0).isSome = true := by
  decide

/-- C1 witness: importing a fifth distinct Valid vote into the
four-Valid-vote example state makes the stored lifecycle
ConcludedValid. -/
theorem c1_witness :
    ((getVotes (importVote exCfg exState4 10 77 (exVote 4 Polarity.Valid) true).1 10 77).getD
        (emptyVotes 0)).lifecycle = DisputeStatus.ConcludedValid :=
  (c1_concluded_valid_stable exCfg exState4 10 77).1 (exVote 4 Polarity.Valid)
    (by decide) (by decide) (by decide) (by decide)
    ((getVotes (importVote exCfg exState4 10 77 (exVote 4 Polarity.Valid) true).1 10 77).getD
        (emptyVotes 0))
    (by decide) (by decide)

end Dispute

namespace Dispute

theorem alLookup_pruneStore (store : List ((SessionIndex × CandidateHash) × CandidateVotes))
    (floor : SessionIndex) (k : SessionIndex × CandidateHash) :
    alLookup (pruneStore store floor) k
      = if k.1 < floor then none else alLookup store k := by
  induction store with
  | nil =>
      show (none : Option CandidateVotes) = if k.1 < floor then none else none
      split <;> rfl
  | cons e rest ih =>
      by_cases hf : floor ≤ e.1.1
      · simp only [pruneStore, List.filter_cons] at ih ⊢
        rw [if_pos (by simpa using hf)]
        by_cases hek : e.1 = k
        · have hk1 : ¬ k.1 < floor := by
            rw [← hek]
            exact Nat.not_lt.mpr hf
          simp [alLookup, hek, hk1]
        · simp only [alLookup, if_neg hek]
          rw [ih]
      · simp only [pruneStore, List.filter_cons] at ih ⊢
        rw [if_neg (by simpa using hf)]
        rw [ih]
        by_cases hek : e.1 = k
        · have hk1 : k.1 < floor := by
            rw [← hek]
            exact Nat.not_le.mp hf
          simp [alLookup, hek, hk1]
        · simp [alLookup, hek]

theorem alLookup_sweep (cfg : DisputeConfig) (nh : SessionIndex)
    (l : List ((SessionIndex × CandidateHash) × CandidateVotes))
    (k : SessionIndex × CandidateHash) :
    alLookup (l.map (fun e => (e.1, sweepVal cfg nh e.2))) k
      = Option.map (sweepVal cfg nh) (alLookup l k) := by
  induction l with
  | nil => rfl
  | cons e rest ih =>
      by_cases hek : e.1 = k
      · simp [alLookup, hek]
      · simp [alLookup, hek, ih]

theorem advance_accepted (cfg : DisputeConfig) (st : CoordState) (n : SessionIndex)
    (h : ¬ n < st.highestSession) :
    advance cfg st n
      = ({ store := (pruneStore st.store (n - cfg.retention)).map
             (fun e => (e.1, sweepVal cfg n e.2)),
           activeIndex := computeActiveIndex ((pruneStore st.store (n - cfg.retention)).map
             (fun e => (e.1, sweepVal cfg n e.2))),
           requested := st.requested.filter (fun k => decide (n - cfg.retention ≤ k.1)),
           highestSession := n }, AdvanceOutcome.advanced) := by
  simp [advance, h]

theorem advance_stale (cfg : DisputeConfig) (st : CoordState) (n : SessionIndex)
    (h : n < st.highestSession) :
    advance cfg st n = (st, AdvanceOutcome.staleSession) := by
  unfold advance
  rw [if_pos h]

/-- C5: after an accepted session advance whose new retention floor lies
strictly above session s, get(s, c) returns none for every candidate c;
and prune removes exactly the store entries whose session is strictly
below the new floor, leaving every other entry bound as before. -/
theorem c5_prune_roundtrip (cfg : DisputeConfig) (st : CoordState) (s : SessionIndex)
    (c : CandidateHash) (n : SessionIndex)
    (hacc : st.highestSession ≤ n) (hbelow : s < n - cfg.retention) :
    getVotes (advance cfg st n).1 s c = none
    ∧ (∀ k : SessionIndex × CandidateHash,
        alLookup (pruneStore st.store (n - cfg.retention)) k
          = if k.1 < n - cfg.retention then none else alLookup st.store k) := by
  constructor
  · rw [advance_accepted cfg st n (Nat.not_lt.mpr hacc)]
    show alLookup ((pruneStore st.store (n - cfg.retention)).map
        (fun e => (e.1, sweepVal cfg n e.2))) (s, c) = none
    rw [alLookup_sweep, alLookup_pruneStore]
    rw [if_pos hbelow]
    rfl
  · intro k
    exact alLookup_pruneStore st.store (n - cfg.retention) k

/-- C5 witness: advancing the example state (window size 3, record at
session 10) to session 14 puts the floor at 11 and the stored votes for
(10, 77) are gone. -/
theorem c5_witness : getVotes (advance exCfg exState4 14).1 10 77 = none :=
  (c5_prune_roundtrip exCfg exState4 10 77 14 (by decide) (by decide)).1

theorem importedVotes_equivocators_mem (cfg : DisputeConfig) (st : CoordState)
    (s : SessionIndex) (c : CandidateHash) (v : Vote)
    (hopp : (alLookup (polarityMap ((alLookup st.store (s, c)).getD
        (emptyVotes st.highestSession)) (oppositeP v.polarity)) v.validator).isSome = true) :
    v.validator ∈ (importedVotes cfg st s c v).equivocators := by
  simp only [importedVotes]
  rw [reevaluate_equivocators]
  rw [if_pos hopp]
  exact List.mem_cons_self _ _

theorem importedVotes_lifecycle_insert (cfg : DisputeConfig) (st : CoordState)
    (s : SessionIndex) (c : CandidateHash) (v : Vote) :
    (importedVotes cfg st s c v).lifecycle
      = (reevaluate cfg s (insertPolarity ((alLookup st.store (s, c)).getD
          (emptyVotes st.highestSession)) v.polarity v.validator v.signature)).lifecycle := by
  simp only [importedVotes]
  split
  · rw [reevaluate_lifecycle_equivocators]
  · rfl

/-- C6: importing a vote of the opposite polarity from a validator who
already has a recorded vote keeps both votes in their polarity
mappings, flags the validator in the equivocation evidence, and returns
the equivocation outcome; and the resulting lifecycle equals the state
machine's re-evaluation of the raw vote counts alone — the equivocators
field never influences the computed lifecycle. -/
theorem c6_equivocation_evidence (cfg : DisputeConfig) (st : CoordState) (s : SessionIndex)
    (c : CandidateHash) (v : Vote) (cv : CandidateVotes)
    (hin : inWindow cfg st s) (hsig : cfg.verifySig s v = true)
    (hcv : getVotes st s c = some cv)
    (hopp : (alLookup (polarityMap cv (oppositeP v.polarity)) v.validator).isSome = true)
    (hsame : alLookup (polarityMap cv v.polarity) v.validator = none) :
    (importVote cfg st s c v true).2 = Except.ok ImportOutcome.equivocation
    ∧ (∃ cv' : CandidateVotes, getVotes (importVote cfg st s c v true).1 s c = some cv'
        ∧ (alLookup (polarityMap cv' v.polarity) v.validator).isSome = true
        ∧ (alLookup (polarityMap cv' (oppositeP v.polarity)) v.validator).isSome = true
        ∧ v.validator ∈ cv'.equivocators
        ∧ cv'.lifecycle
            = (reevaluate cfg s (insertPolarity cv v.polarity v.validator v.signature)).lifecycle)
    ∧ (∀ (cva : CandidateVotes) (e : List ValidatorIndex),
        (reevaluate cfg s { cva with equivocators := e }).lifecycle
          = (reevaluate cfg s cva).lifecycle) := by
  have hg : (alLookup st.store (s, c)).getD (emptyVotes st.highestSession) = cv := by
    unfold getVotes at hcv
    rw [hcv]
    rfl
  have hw := importVote_write_case cfg st s c v hin hsig (by rw [hg]; exact hsame)
  refine ⟨?_, ⟨importedVotes cfg st s c v, ?_, ?_, ?_, ?_, ?_⟩, ?_⟩
  · rw [hw]
    show Except.ok (if (alLookup (polarityMap ((alLookup st.store (s, c)).getD
        (emptyVotes st.highestSession)) (oppositeP v.polarity)) v.validator).isSome
      then ImportOutcome.equivocation else ImportOutcome.accepted)
        = Except.ok ImportOutcome.equivocation
    rw [hg, if_pos hopp]
  · rw [hw]
    unfold getVotes
    show alLookup (alInsert st.store (s, c) (importedVotes cfg st s c v)) (s, c)
      = some (importedVotes cfg st s c v)
    exact alLookup_alInsert_self _ _ _
  · rw [importedVotes_polarityMap_self, hg]
    simp [alLookup]
  · rw [importedVotes_polarityMap_opp, hg]
    exact hopp
  · exact importedVotes_equivocators_mem cfg st s c v (by rw [hg]; exact hopp)
  · rw [importedVotes_lifecycle_insert, hg]
  · intro cva e
    exact reevaluate_lifecycle_equivocators cfg s cva e

/-- C6 witness: validator 0 voted Valid for (10, 77) in the example
state; importing their Invalid vote yields the equivocation outcome. -/
theorem c6_witness :
    (importVote exCfg exState1 10 77 (exVote 0 Polarity.Invalid) true).2
      = Except.ok ImportOutcome.equivocation :=
  (c6_equivocation_evidence exCfg exState1 10 77 (exVote 0 Polarity.Invalid)
    { validVotes := [(0, 0)], invalidVotes := [], equivocators := [],
      lifecycle := DisputeStatus.Active, firstObserved := 10 }
    (by decide) (by decide) (by decide) (by decide) (by decide)).1

end Dispute

namespace Dispute

theorem advance_highest_le (cfg : DisputeConfig) (st : CoordState) (n : SessionIndex) :
    st.highestSession ≤ (advance cfg st n).1.highestSession := by
  unfold advance
  split
  · exact Nat.le_refl _
  · next h =>
      show st.highestSession ≤ n
      exact Nat.not_lt.mp h

theorem considerParticipation_highest (cfg : DisputeConfig) (st : CoordState)
    (s : SessionIndex) (c : CandidateHash) :
    (considerParticipation cfg st s c).1.highestSession = st.highestSession := by
  unfold considerParticipation
  split
  · rfl
  · split <;> rfl

theorem step_highest_le (cfg : DisputeConfig) (st : CoordState) (op : Op) :
    st.highestSession ≤ (step cfg st op).1.highestSession := by
  cases op with
  | imp s c v w =>
      show st.highestSession ≤ (importVote cfg st s c v w).1.highestSession
      rw [importVote_highest]
  | adv n =>
      show st.highestSession ≤ (advance cfg st n).1.highestSession
      exact advance_highest_le cfg st n
  | obs s c =>
      show st.highestSession ≤ (considerParticipation cfg st s c).1.highestSession
      rw [considerParticipation_highest]

theorem run_highest_le (cfg : DisputeConfig) :
    ∀ (ops : List Op) (st : CoordState),
      st.highestSession ≤ (run cfg st ops).1.highestSession := by
  intro ops
  induction ops with
  | nil => intro st; exact Nat.le_refl _
  | cons op rest ih =>
      intro st
      calc st.highestSession
          ≤ (step cfg st op).1.highestSession := step_highest_le cfg st op
        _ ≤ (run cfg (step cfg st op).1 rest).1.highestSession := ih _
        _ = (run cfg st (op :: rest)).1.highestSession := rfl

/-- C4: session advance is monotonic — after advance(s), a second call
advance(s') with s' < s is rejected as StaleSession and leaves the
state (window bounds and store) unchanged; and highest_session never
decreases across any sequence of operations. -/
theorem c4_advance_monotonic (cfg : DisputeConfig) (st : CoordState) (s s' : SessionIndex)
    (h : s' < s) :
    advance cfg (advance cfg st s).1 s' = ((advance cfg st s).1, AdvanceOutcome.staleSession)
    ∧ (∀ ops : List Op, st.highestSession ≤ (run cfg st ops).1.highestSession) := by
  constructor
  · have hlt : s' < (advance cfg st s).1.highestSession := by
      unfold advance
      split
      · next hst => exact Nat.lt_trans h hst
      · show s' < s
        exact h
    exact advance_stale cfg _ s' hlt
  · intro ops
    exact run_highest_le cfg ops st

/-- C4 witness: advancing the example state to session 12 and then
asking for session 11 is a stale no-op; the empty run does not decrease
the session bound. -/
theorem c4_witness :
    advance exCfg (advance exCfg exState 12).1 11
        = ((advance exCfg exState 12).1, AdvanceOutcome.staleSession)
      ∧ exState.highestSession ≤ (run exCfg exState []).1.highestSession :=
  ⟨(c4_advance_monotonic exCfg exState 12 11 (by decide)).1,
   (c4_advance_monotonic exCfg exState 12 11 (by decide)).2 []⟩

theorem step_requested_mem (cfg : DisputeConfig) (st : CoordState) (op : Op)
    (s : SessionIndex) (c : CandidateHash)
    (hmem : (s, c) ∈ st.requested)
    (hnp : ∀ n, op = Op.adv n → n - cfg.retention ≤ s) :
    (s, c) ∈ (step cfg st op).1.requested := by
  cases op with
  | imp s1 c1 v w =>
      show (s, c) ∈ (importVote cfg st s1 c1 v w).1.requested
      rw [importVote_requested]
      exact hmem
  | adv n =>
      show (s, c) ∈ (advance cfg st n).1.requested
      unfold advance
      split
      · exact hmem
      · show (s, c) ∈ st.requested.filter (fun k => decide (n - cfg.retention ≤ k.1))
        rw [List.mem_filter]
        exact ⟨hmem, by simpa using hnp n rfl⟩
  | obs s1 c1 =>
      show (s, c) ∈ (considerParticipation cfg st s1 c1).1.requested
      unfold considerParticipation
      split
      · exact hmem
      · split
        · exact List.mem_cons_of_mem _ hmem
        · exact hmem

theorem considerParticipation_emits_not_requested (cfg : DisputeConfig) (st : CoordState)
    (s1 : SessionIndex) (c1 : CandidateHash)
    (h : (considerParticipation cfg st s1 c1).2 = true) : ¬ (s1, c1) ∈ st.requested := by
  revert h
  unfold considerParticipation
  split
  · intro h
    exact Bool.noConfusion h
  · split
    · next hcond =>
        intro _
        exact hcond.2.2
    · intro h
      exact Bool.noConfusion h

theorem step_no_emit_of_mem (cfg : DisputeConfig) (st : CoordState) (op : Op)
    (s : SessionIndex) (c : CandidateHash) (hmem : (s, c) ∈ st.requested) :
    (s, c) ∉ (step cfg st op).2 := by
  cases op with
  | imp s1 c1 v w => simp [step]
  | adv n => simp [step]
  | obs s1 c1 =>
      show (s, c) ∉ (if (considerParticipation cfg st s1 c1).2 then [(s1, c1)] else [])
      split
      · next htrue =>
          simp only [List.mem_singleton]
          intro hh
          exact considerParticipation_emits_not_requested cfg st s1 c1 htrue (hh ▸ hmem)
      · simp

theorem run_no_emit_of_requested (cfg : DisputeConfig) (s : SessionIndex) (c : CandidateHash) :
    ∀ (ops : List Op) (st : CoordState), (s, c) ∈ st.requested →
      (∀ n, Op.adv n ∈ ops → n - cfg.retention ≤ s) →
      (s, c) ∉ (run cfg st ops).2 := by
  intro ops
  induction ops with
  | nil =>
      intro st hmem hnp
      show (s, c) ∉ ([] : List (SessionIndex × CandidateHash))
      simp
  | cons op rest ih =>
      intro st hmem hnp
      have h1 := step_no_emit_of_mem cfg st op s c hmem
      have h2 := ih (step cfg st op).1
        (step_requested_mem cfg st op s c hmem
          (fun n hn => hnp n (by rw [← hn]; exact List.mem_cons_self _ _)))
        (fun n hn => hnp n (List.mem_cons_of_mem _ hn))
      show (s, c) ∉ (step cfg st op).2 ++ (run cfg (step cfg st op).1 rest).2
      intro hmemapp
      rcases List.mem_append.mp hmemapp with hx | hx
      · exact h1 hx
      · exact h2 hx

theorem considerParticipation_fires (cfg : DisputeConfig) (st : CoordState)
    (s : SessionIndex) (c : CandidateHash) (cv : CandidateVotes)
    (hcv : alLookup st.store (s, c) = some cv)
    (hact : cv.lifecycle = DisputeStatus.Active)
    (hloc : hasLocalVote cfg s cv = false)
    (hreq : ¬ (s, c) ∈ st.requested) :
    considerParticipation cfg st s c
      = ({ st with requested := (s, c) :: st.requested }, true) := by
  unfold considerParticipation
  simp only [hcv]
  rw [if_pos ⟨hact, hloc, hreq⟩]

/-- C7: the participation trigger emits at most one re-validation
request per (session, candidate): observing an Active dispute with no
local vote and no prior request emits exactly one request, and no
operation sequence that does not prune the record can make the pair be
emitted again. -/
theorem c7_participation_once (cfg : DisputeConfig) (st : CoordState) (s : SessionIndex)
    (c : CandidateHash) (cv : CandidateVotes)
    (hcv : getVotes st s c = some cv)
    (hact : cv.lifecycle = DisputeStatus.Active)
    (hloc : hasLocalVote cfg s cv = false)
    (hreq : ¬ (s, c) ∈ st.requested) :
    (considerParticipation cfg st s c).2 = true
    ∧ (∀ ops : List Op, (∀ n, Op.adv n ∈ ops → n - cfg.retention ≤ s) →
        (s, c) ∉ (run cfg (considerParticipation cfg st s c).1 ops).2) := by
  have hfire := considerParticipation_fires cfg st s c cv hcv hact hloc hreq
  constructor
  · rw [hfire]
  · intro ops hnp
    apply run_no_emit_of_requested cfg s c ops
    · rw [hfire]
      exact List.mem_cons_self _ _
    · exact hnp

/-- C7 witness: the example state holds an Active dispute at (10, 77)
with no local vote and no prior request; observing it emits one
request, and two further observations emit none. -/
theorem c7_witness :
    (considerParticipation exCfg exState4 10 77).2 = true
    ∧ (10, 77) ∉ (run exCfg (considerParticipation exCfg exState4 10 77).1
        [Op.obs 10 77, Op.obs 10 77]).2 := by
  have h := c7_participation_once exCfg exState4 10 77
    ((getVotes exState4 10 77).getD (emptyVotes 0))
    (by decide) (by decide) (by decide) (by decide)
  refine ⟨h.1, h.2 [Op.obs 10 77, Op.obs 10 77] ?_⟩
  intro n hn
  simp [List.mem_cons] at hn

end Dispute
